import Mathlib

/-!
# Verification of the conversational QA assistant (`src/app.py`)

Shallow embedding of the turn orchestrator `generate_completion`, the
retrieval-tool assembly `get_tools`, and the knowledge-base provisioner
`download_knowledge_base_if_not_exists`, together with proofs of the
specified properties (memory reconciliation, stream monotonicity, tool
contract, provisioning behaviour).

Conventions:
* A chat message is a role plus text content (`llama_index` `ChatMessage`).
* The session memory (`ChatSummaryMemoryBuffer`) is modelled by its retained
  ordered message sequence, the only part the reconciliation block touches
  (`memory.get()` / `memory.set(...)`).
* The external Gradio history is a list of (user, assistant) pairs; the code
  uses only its length.
* External collaborators (the chroma document store, the Cohere reranker,
  the OpenAI generation engine) are modelled by explicit parameters: a
  store-availability flag, candidate passage lists, and the token sequence
  emitted by the engine.
-/

/-- Message roles, as in `llama_index.core.llms.MessageRole`
(the roles the spec's data model names). -/
inductive MessageRole where
  | USER
  | ASSISTANT
  | SYSTEM
deriving DecidableEq, Repr

/-- One utterance: a role and text content. -/
structure ChatMessage where
  role : MessageRole
  content : String
deriving DecidableEq, Repr

/-- Number of USER-role messages in a retained sequence. -/
def countUsers (l : List ChatMessage) : Nat :=
  (l.filter (fun m => m.role == MessageRole.USER)).length

/-- `user_index = [i for i, msg in enumerate(chat_list) if msg.role == MessageRole.USER]`
(src/app.py line 113). -/
def user_index (chat_list : List ChatMessage) : List Nat :=
  ((chat_list.enum).filter (fun p => p.2.role == MessageRole.USER)).map Prod.fst

/-- The memory-management block of `generate_completion` (src/app.py lines
110-117), acting on the retained sequence `chat_list = memory.get()`:

```
if len(chat_list) != 0:
    user_index = [i for i, msg in enumerate(chat_list) if msg.role == MessageRole.USER]
    if len(user_index) > len(history):
        user_index_to_remove = user_index[len(history)]
        chat_list = chat_list[:user_index_to_remove]
        memory.set(chat_list)
```

`historyLen` is `len(history)`.  In the truncating branch
`len(history) < len(user_index)` holds, so `List.getD` returns the actual
element `user_index[len(history)]`. -/
def manage_memory (chat_list : List ChatMessage) (historyLen : Nat) : List ChatMessage :=
  if chat_list.length ≠ 0 then
    let ui := user_index chat_list
    if ui.length > historyLen then
      let user_index_to_remove := ui.getD historyLen 0
      chat_list.take user_index_to_remove
    else chat_list
  else chat_list

/-- Recursive characterization of `user_index`, used by the proofs. -/
def userPosAux : List ChatMessage → List Nat
  | [] => []
  | m :: rest =>
      if m.role == MessageRole.USER then
        0 :: (userPosAux rest).map (· + 1)
      else
        (userPosAux rest).map (· + 1)

theorem userPos_enumFrom (l : List ChatMessage) (n : Nat) :
    ((List.enumFrom n l).filter (fun p => p.2.role == MessageRole.USER)).map Prod.fst
      = (userPosAux l).map (· + n) := by
  induction l generalizing n with
  | nil => simp [List.enumFrom, userPosAux]
  | cons m rest ih =>
      have hfun : ∀ x : Nat, x + 1 + n = x + (n + 1) := by omega
      by_cases hm : m.role = MessageRole.USER
      · simp [List.enumFrom, userPosAux, hm, ih, List.map_map, Function.comp, hfun]
      · simp [List.enumFrom, userPosAux, hm, ih, List.map_map, Function.comp, hfun]

theorem user_index_eq_aux (l : List ChatMessage) : user_index l = userPosAux l := by
  have h := userPos_enumFrom l 0
  simpa [user_index, List.enum] using h

theorem countUsers_cons (m : ChatMessage) (l : List ChatMessage) :
    countUsers (m :: l) = (if m.role = MessageRole.USER then 1 else 0) + countUsers l := by
  by_cases hm : m.role = MessageRole.USER <;>
    simp [countUsers, List.filter_cons, hm, Nat.add_comm]

theorem length_userPosAux (l : List ChatMessage) :
    (userPosAux l).length = countUsers l := by
  induction l with
  | nil => simp [userPosAux, countUsers]
  | cons m rest ih =>
      by_cases hm : m.role = MessageRole.USER <;>
        simp [userPosAux, hm, countUsers_cons, ih, Nat.add_comm]

theorem length_user_index (l : List ChatMessage) :
    (user_index l).length = countUsers l := by
  rw [user_index_eq_aux]; exact length_userPosAux l

/-- Key counting fact: the prefix of the message sequence strictly before the
position of the `(H+1)`-th USER message contains exactly `H` USER messages. -/
theorem countUsers_take_userPos (l : List ChatMessage) (H : Nat)
    (h : H < (userPosAux l).length) :
    countUsers (l.take (userPosAux l)[H]) = H := by
  induction l generalizing H with
  | nil => simp [userPosAux] at h
  | cons m rest ih =>
      by_cases hm : m.role = MessageRole.USER
      · cases H with
        | zero => simp [userPosAux, hm, countUsers]
        | succ H' =>
            have h' : H' < (userPosAux rest).length := by
              simpa [userPosAux, hm] using h
            have hget : (userPosAux (m :: rest))[H' + 1] = (userPosAux rest)[H'] + 1 := by
              simp [userPosAux, hm]
            rw [hget, List.take_succ_cons, countUsers_cons]
            have := ih H' h'
            simp [hm, this, Nat.add_comm]
      · have h' : H < (userPosAux rest).length := by
          simpa [userPosAux, hm] using h
        have hget : (userPosAux (m :: rest))[H] = (userPosAux rest)[H] + 1 := by
          simp [userPosAux, hm]
        rw [hget, List.take_succ_cons, countUsers_cons]
        have := ih H h'
        simp [hm, this]

theorem countUsers_take_user_index (l : List ChatMessage) (H : Nat)
    (h : H < (user_index l).length) :
    countUsers (l.take (user_index l)[H]) = H := by
  have h' : H < (userPosAux l).length := by
    rw [← user_index_eq_aux]; exact h
  have hts := countUsers_take_userPos l H h'
  rw [List.getElem_of_eq (user_index_eq_aux l) h]
  exact hts

/-- In the truncating case (`U > H`) the retained sequence becomes exactly the
prefix strictly before the position of the `(H+1)`-th USER message. -/
theorem manage_memory_eq_take (l : List ChatMessage) (H : Nat)
    (h : H < (user_index l).length) :
    manage_memory l H = l.take (user_index l)[H] := by
  have hne : l.length ≠ 0 := by
    intro h0
    rw [List.length_eq_zero] at h0
    subst h0
    simp [user_index] at h
  have hgetD : (user_index l).getD H 0 = (user_index l)[H] := by
    simp [List.getD_eq_getElem?_getD, List.getElem?_eq_getElem h]
  simp [manage_memory, hne, h, hgetD]

/-- In the consistent case (`U ≤ H`) reconciliation leaves memory unchanged. -/
theorem manage_memory_noop (l : List ChatMessage) (H : Nat)
    (h : countUsers l ≤ H) :
    manage_memory l H = l := by
  have hui : ¬ ((user_index l).length > H) := by
    rw [length_user_index]; omega
  by_cases hne : l.length ≠ 0
  · simp [manage_memory, hne, hui]
  · simp [manage_memory, hne]

/-- After reconciliation the retained USER-message count never exceeds `H`. -/
theorem countUsers_manage_memory_le (l : List ChatMessage) (H : Nat) :
    countUsers (manage_memory l H) ≤ H := by
  by_cases h : H < (user_index l).length
  · rw [manage_memory_eq_take l H h, countUsers_take_user_index l H h]
  · have : countUsers l ≤ H := by
      rw [← length_user_index]; omega
    rw [manage_memory_noop l H this]
    exact this

/-- `PROMPT_SYSTEM_MESSAGE` (src/app.py lines 30-38): the persona/grounding
system prompt.  Apostrophes are written with the `\x27` escape. -/
def PROMPT_SYSTEM_MESSAGE : String :=
  "You are an AI assistant and expert instructor responding to technical questions from software architects and developers who are working in enterprise software architecture. \n"
  ++ "These users are particularly focused on Microsoft technologies and Azure cloud services. Topics they are exploring include architecture patterns in Azure (serverless, microservices, event-driven systems), Azure services comparison (Functions, App Service, AKS, Logic Apps, etc.), DevOps practices (IaC with Bicep/Terraform, CI/CD with Azure DevOps or GitHub Actions), observability with Application Insights, secure design using Key Vault, identity management with Azure AD and B2C.\n"
  ++ "You should treat each question as part of this context. Your responses should be complete, accurate, and educational — suitable for technical professionals with intermediate to advanced knowledge in cloud architecture and AI application development. \n"
  ++ "To find relevant information for answering questions, always use the \"Azure_AI_Knowledge\" tool. This tool returns technical documentation, architecture guides, official examples, and troubleshooting data focused on Azure and AI integration.\n"
  ++ "Only part of the tool\x27s output may be relevant to the question — discard the irrelevant sections. Your answer should rely **exclusively** on the content provided by the tool. Do **not** inject external or speculative knowledge. If the user refines their question or focuses on a specific sub-topic, reformulate the tool query to capture that specificity and retrieve deeper information.\n"
  ++ "If a user requests further elaboration on a specific aspect of a previously discussed topic, you should reformulate your input to the tool to capture this new angle or more profound layer of inquiry. Structure your answers in clear sections with multiple paragraphs if needed. If code is returned, include full code blocks in your response (formatted in Markdown) so the user can copy and run them directly.\n"
  ++ "If the tool doesn\x27t return relevant content, inform the user clearly that the topic exceeds the current knowledge base and mention that no relevant documentation was found via the tool.\n"
  ++ "Always close your answers by inviting the user to ask follow-up or deeper questions related to the topic.\n"

/-- `QA_TEMPLATE` (src/app.py line 40): the string actually passed as
`system_prompt` when the agent is constructed. -/
def QA_TEMPLATE : String :=
  "Answer questions about Azure using \x27Azure_AI_Knowledge\x27 tool"

/-- A scored retrieved passage (`NodeWithScore` in the retrieval libraries).
The relevance score, a float in the external libraries, is modelled as an
integer: the verified properties (ordering, counting) depend only on the
order structure of scores. -/
structure NodeWithScore where
  text : String
  score : Int
deriving DecidableEq, Repr

/-- `ToolMetadata(name=..., description=...)`. -/
structure ToolMetadata where
  name : String
  description : String
deriving DecidableEq, Repr

/-- Configuration of the `RetrieverTool` assembled by `get_tools`
(src/app.py lines 81-103): retriever fan-out, reranker final count and
model, and the tool metadata. -/
structure RetrieverTool where
  similarity_top_k : Nat
  rerank_top_n : Nat
  rerank_model : String
  metadata : ToolMetadata
deriving DecidableEq, Repr

/-- Relevance comparison used to model rerank ordering: `scoreGE a b` holds
when `a` is at least as relevant as `b`. -/
def scoreGE (a b : NodeWithScore) : Prop := b.score ≤ a.score

instance : DecidableRel scoreGE := fun a b =>
  inferInstanceAs (Decidable (b.score ≤ a.score))

instance : IsTotal NodeWithScore scoreGE :=
  ⟨fun a b => le_total b.score a.score⟩

instance : IsTrans NodeWithScore scoreGE :=
  ⟨fun _ _ _ hab hbc => le_trans hbc hab⟩

/-- Modelled from the spec: the external `CohereRerank(top_n=5,
model=\x27rerank-english-v3.0\x27)` postprocessor (not part of this
repository), which "reduces the candidate set to a small final count
(default 5) using a cross-encoder-style relevance model", returning
"≤ final-count passages, ordered by descending relevance".  Modelled as:
order the candidates by non-increasing relevance score and keep the first
`top_n`. -/
def cohereRerank (top_n : Nat) (candidates : List NodeWithScore) : List NodeWithScore :=
  (List.insertionSort scoreGE candidates).take top_n

/-- `get_tools` (src/app.py lines 59-104).  Opening the chroma collection
(`chromadb.PersistentClient` / `get_or_create_collection`) is the fallible
step; the external store is modelled by `storeAvailable`, saying whether the
document collection can be opened.  On success the function returns the
one-element tool list wiring the vector retriever (`similarity_top_k=400`)
and the Cohere reranker (`top_n=5`, model `rerank-english-v3.0`) under
metadata `name="Azure_AI_Knowledge"`.  On failure the exception propagates —
`get_tools` contains no handler.  The tool configuration built on success: -/
def azure_ai_knowledge_tool : RetrieverTool :=
  ⟨400, 5, "rerank-english-v3.0",
    ⟨"Azure_AI_Knowledge",
     "Useful for info related to Azure and microsoft. Best practices, architecture, and other related resources."⟩⟩

def get_tools (db_collection : String) (storeAvailable : Bool) :
    Except String (List RetrieverTool) :=
  if storeAvailable then
    Except.ok [azure_ai_knowledge_tool]
  else
    Except.error ("StoreUnavailableError: data/" ++ db_collection)

/-- Modelled from the spec: one invocation of the assembled retrieval tool.
The retriever draws at most `similarity_top_k` candidates from the store
("a similarity fan-out parameter (`top_k` candidates, default 400)"), then
the reranking postprocessor narrows them to the final count.  `candidates`
is the store\x27s scored candidate pool for the query, in store order. -/
def toolInvoke (t : RetrieverTool) (candidates : List NodeWithScore) : List NodeWithScore :=
  cohereRerank t.rerank_top_n (candidates.take t.similarity_top_k)

/-- The streaming loop of `generate_completion` (src/app.py lines 134-137):
`answer_str` starts empty, each token is appended to it, and the full
answer-so-far is yielded after each append. -/
def streamLoop (answer_str : String) : List String → List String
  | [] => []
  | token :: rest => (answer_str ++ token) :: streamLoop (answer_str ++ token) rest

/-- The sequence of strings yielded by the streaming loop for a given token
sequence emitted by the generation engine. -/
def streamYields (tokens : List String) : List String := streamLoop "" tokens

/-- The generation-engine configuration actually bound by
`OpenAIAgent.from_tools(llm=Settings.llm, memory=memory, tools=tools,
system_prompt=QA_TEMPLATE)` (src/app.py lines 125-130). -/
structure Agent where
  system_prompt : String
  tools : List RetrieverTool
  memory : List ChatMessage
deriving DecidableEq, Repr

/-- `generate_completion` (src/app.py lines 107-140).  Parameters beyond the
Python signature model the external collaborators: `storeAvailable` is
whether the chroma collection opens (see `get_tools`) and `tokens` is the
token sequence the generation engine streams for this query.  The Python
function contains no exception handler, so a `get_tools` failure propagates
out of the turn (the `Except.error` result); on success the turn yields the
growing-prefix stream and runs with the agent configuration returned here. -/
def generate_completion (query : String) (history : List (String × String))
    (memory : List ChatMessage) (storeAvailable : Bool) (tokens : List String) :
    Except String (List String × Agent) :=
  let chat_list := manage_memory memory history.length
  match get_tools "azure-architect" storeAvailable with
  | Except.error e => Except.error e
  | Except.ok tools =>
      Except.ok (streamYields tokens, ⟨QA_TEMPLATE, tools, chat_list⟩)

/-- Local state at `data/azure-architect`: whether the directory exists
(`os.path.exists`) and whether the dataset snapshot has been fully
downloaded into it. -/
structure KBState where
  dirExists : Bool
  snapshotComplete : Bool
deriving DecidableEq, Repr

/-- `download_knowledge_base_if_not_exists` (src/app.py lines 43-56).
`fetchSucceeds` models the outcome of the external `snapshot_download`
network call.  Returns the resulting filesystem state, whether a fetch was
attempted, and `some` error message when the fetch raised — by which point
`os.makedirs` has already created the directory, so the directory survives
the failure. -/
def download_knowledge_base_if_not_exists (fs : KBState) (fetchSucceeds : Bool) :
    KBState × Bool × Option String :=
  if ¬ fs.dirExists then
    if fetchSucceeds then
      (⟨true, true⟩, true, none)
    else
      (⟨true, fs.snapshotComplete⟩, true, some "snapshot_download raised")
  else
    (fs, false, none)

theorem streamLoop_length (acc : String) (ts : List String) :
    (streamLoop acc ts).length = ts.length := by
  induction ts generalizing acc with
  | nil => rfl
  | cons t ts ih => simp [streamLoop, ih]

theorem streamLoop_getElem (acc : String) (ts : List String) (i : Nat)
    (h : i < (streamLoop acc ts).length) :
    (streamLoop acc ts)[i] = (ts.take (i + 1)).foldl (fun a b => a ++ b) acc := by
  induction ts generalizing acc i with
  | nil => simp [streamLoop] at h
  | cons t ts ih =>
      cases i with
      | zero => simp [streamLoop]
      | succ i =>
          have h' : i < (streamLoop (acc ++ t) ts).length := by
            simpa [streamLoop] using h
          have := ih (acc ++ t) i h'
          simpa [streamLoop] using this

theorem streamYields_getElem (tokens : List String) (i : Nat)
    (h : i < (streamYields tokens).length) :
    (streamYields tokens)[i] = String.join (tokens.take (i + 1)) := by
  have := streamLoop_getElem "" tokens i h
  simpa [streamYields, String.join] using this

/-- Example memory used by witnesses: three user turns, mirroring the spec's
scenario (`U = 3`). -/
def exMem3 : List ChatMessage :=
  [⟨MessageRole.USER, "q1"⟩, ⟨MessageRole.ASSISTANT, "a1"⟩,
   ⟨MessageRole.USER, "q2"⟩, ⟨MessageRole.ASSISTANT, "a2"⟩,
   ⟨MessageRole.USER, "q3"⟩, ⟨MessageRole.ASSISTANT, "a3"⟩]

/-- C1: for every memory whose retained sequence has `U` USER messages and
every external history of length `H < U` (equivalently `H` below the length
of `user_index`, whose length is the USER count), reconciliation truncates
the retained sequence to exactly the messages strictly before the
`(H+1)`-th USER message (position `user_index[H]`), and the USER count
afterwards equals `H`. -/
theorem spec_reconciliation_truncation (l : List ChatMessage) (H : Nat)
    (h : H < (user_index l).length) :
    (user_index l).length = countUsers l ∧
    manage_memory l H = l.take (user_index l)[H] ∧
    countUsers (manage_memory l H) = H := by
  refine ⟨length_user_index l, manage_memory_eq_take l H h, ?_⟩
  rw [manage_memory_eq_take l H h]
  exact countUsers_take_user_index l H h

/-- Witness for C1 at the spec's scenario: `U = 3`, `H = 1`. -/
theorem spec_reconciliation_truncation_witness :
    1 < (user_index exMem3).length ∧
    ((user_index exMem3).length = countUsers exMem3 ∧
     manage_memory exMem3 1 = exMem3.take (user_index exMem3)[1] ∧
     countUsers (manage_memory exMem3 1) = 1) :=
  ⟨by decide, spec_reconciliation_truncation exMem3 1 (by decide)⟩

/-- C2: after the reconciliation step (and before the new turn's query and
response are appended) the number of USER-role messages retained in memory
is at most `H`, for every input memory and every `H`. -/
theorem spec_user_count_invariant (l : List ChatMessage) (H : Nat) :
    countUsers (manage_memory l H) ≤ H :=
  countUsers_manage_memory_le l H

/-- C3: whenever `H ≥ U` (the memory's USER count), reconciliation leaves
the memory exactly unchanged; in particular an empty memory is always left
unchanged. -/
theorem spec_reconciliation_noop (l : List ChatMessage) (H : Nat)
    (h : countUsers l ≤ H) :
    manage_memory l H = l ∧ manage_memory ([] : List ChatMessage) H = [] :=
  ⟨manage_memory_noop l H h, manage_memory_noop [] H (Nat.zero_le H)⟩

/-- Witness for C3 at `U = 3`, `H = 3`. -/
theorem spec_reconciliation_noop_witness :
    countUsers exMem3 ≤ 3 ∧
    (manage_memory exMem3 3 = exMem3 ∧ manage_memory ([] : List ChatMessage) 3 = []) :=
  ⟨by decide, spec_reconciliation_noop exMem3 3 (by decide)⟩

/-- C4 counterexample: a non-empty memory containing no USER-role message
(a lone ASSISTANT message) is left unchanged — hence non-empty — by
reconciliation at `H = 0`, contradicting "for every non-empty memory and
`H = 0` the retained sequence is empty afterwards". -/
theorem spec_h_zero_counterexample :
    ([⟨MessageRole.ASSISTANT, "hello"⟩] : List ChatMessage) ≠ [] ∧
    manage_memory [⟨MessageRole.ASSISTANT, "hello"⟩] 0 ≠ [] := by
  decide

/-- C4 (amended): for every memory whose first message has role USER (the
shape session memory actually takes, since a session opens with the first
user query) and external history of length `H = 0`, reconciliation truncates
everything: the retained sequence is empty afterwards. -/
theorem spec_h_zero_truncates_all (m : ChatMessage) (rest : List ChatMessage)
    (h : m.role = MessageRole.USER) :
    manage_memory (m :: rest) 0 = [] := by
  have hh : 0 < (user_index (m :: rest)).length := by
    rw [length_user_index, countUsers_cons, h]
    simp
  rw [manage_memory_eq_take (m :: rest) 0 hh]
  have h0 : (user_index (m :: rest))[0] = 0 := by
    rw [List.getElem_of_eq (user_index_eq_aux (m :: rest)) hh]
    simp [userPosAux, h]
  rw [h0]
  rfl

/-- Witness for the amended C4: a one-turn memory starting with a USER
message is emptied at `H = 0`. -/
theorem spec_h_zero_truncates_all_witness :
    (⟨MessageRole.USER, "q1"⟩ : ChatMessage).role = MessageRole.USER ∧
    manage_memory [⟨MessageRole.USER, "q1"⟩, ⟨MessageRole.ASSISTANT, "a1"⟩] 0 = [] :=
  ⟨rfl, spec_h_zero_truncates_all ⟨MessageRole.USER, "q1"⟩
    [⟨MessageRole.ASSISTANT, "a1"⟩] rfl⟩

/-- C5 (divergence): at any turn — here a concrete one — the generation
engine is instantiated with `system_prompt = QA_TEMPLATE` (the one-line
tool-usage template), and `QA_TEMPLATE` is not the persona/grounding prompt
`PROMPT_SYSTEM_MESSAGE`, which is defined in the module but never bound to
the agent. -/
theorem spec_system_prompt_divergence :
    generate_completion "What is Azure Functions?" [] [] true []
      = Except.ok ([], ⟨QA_TEMPLATE, [azure_ai_knowledge_tool], []⟩) ∧
    QA_TEMPLATE ≠ PROMPT_SYSTEM_MESSAGE := by
  refine ⟨rfl, ?_⟩
  decide

/-- C6 counterexample: when the document collection cannot be opened, the
(concrete) turn does not complete with a user-visible message: the
`StoreUnavailableError` propagates out of `generate_completion` as an error
result. -/
theorem spec_turn_error_counterexample :
    generate_completion "What is Azure Functions?" [] [] false []
      = Except.error "StoreUnavailableError: data/azure-architect" := rfl

/-- C6 (amended): `generate_completion` contains no error handler, so a
`StoreUnavailableError` raised while building the retrieval tool propagates
out of the turn orchestrator for every query, history, memory and token
stream — the turn fails instead of completing with a user-visible
message. -/
theorem spec_turn_error_propagates (query : String)
    (history : List (String × String)) (memory : List ChatMessage)
    (tokens : List String) :
    generate_completion query history memory false tokens
      = Except.error "StoreUnavailableError: data/azure-architect" := rfl

/-- C7: the stream yielded by `generate_completion` is `streamYields tokens`;
its `i`-th item is the full answer-so-far — the concatenation of the first
`i+1` tokens, not a delta — and every successive item extends the previous
one by a (possibly empty) suffix, so the stream is a growing-prefix
sequence. -/
theorem spec_stream_monotonicity (query : String)
    (history : List (String × String)) (memory : List ChatMessage)
    (tokens : List String) (i : Nat)
    (h : i < (streamYields tokens).length) :
    (∃ a : Agent, generate_completion query history memory true tokens
        = Except.ok (streamYields tokens, a)) ∧
    (streamYields tokens)[i] = String.join (tokens.take (i + 1)) ∧
    ∀ h2 : i + 1 < (streamYields tokens).length,
      ∃ t : String, (streamYields tokens)[i + 1] = (streamYields tokens)[i] ++ t := by
  refine ⟨⟨_, rfl⟩, streamYields_getElem tokens i h, ?_⟩
  intro h2
  have hlen : i + 1 < tokens.length := by
    simpa [streamYields, streamLoop_length] using h2
  refine ⟨tokens[i + 1], ?_⟩
  have htake : tokens.take (i + 1 + 1) = tokens.take (i + 1) ++ [tokens[i + 1]] := by
    rw [List.take_succ]
    simp [List.getElem?_eq_getElem hlen]
  have e1 := streamLoop_getElem "" tokens i h
  have e2 := streamLoop_getElem "" tokens (i + 1) h2
  show (streamLoop "" tokens)[i + 1] = (streamLoop "" tokens)[i] ++ tokens[i + 1]
  rw [e1, e2, htake, List.foldl_append]
  rfl

/-- Witness for C7 at a two-token stream. -/
theorem spec_stream_monotonicity_witness :
    0 < (streamYields ["Azure ", "Functions"]).length ∧
    ((∃ a : Agent, generate_completion "q" [] [] true ["Azure ", "Functions"]
        = Except.ok (streamYields ["Azure ", "Functions"], a)) ∧
     (streamYields ["Azure ", "Functions"])[0]
        = String.join (["Azure ", "Functions"].take (0 + 1)) ∧
     ∀ h2 : 0 + 1 < (streamYields ["Azure ", "Functions"]).length,
       ∃ t : String, (streamYields ["Azure ", "Functions"])[0 + 1]
          = (streamYields ["Azure ", "Functions"])[0] ++ t) :=
  ⟨by decide, spec_stream_monotonicity "q" [] [] ["Azure ", "Functions"] 0 (by decide)⟩

/-- C8: reconciliation is idempotent — applying the memory-management block
twice with the same history length gives the same retained sequence as
applying it once. -/
theorem spec_reconciliation_idempotent (l : List ChatMessage) (H : Nat) :
    manage_memory (manage_memory l H) H = manage_memory l H :=
  manage_memory_noop _ H (countUsers_manage_memory_le l H)

/-- C9: the retrieval tool built by `get_tools` carries the stable name
`"Azure_AI_Knowledge"`, a similarity fan-out of 400 candidates and a rerank
final count of 5, and for every candidate pool an invocation returns at most
5 passages in non-increasing relevance order. -/
theorem spec_tool_contract :
    get_tools "azure-architect" true = Except.ok [azure_ai_knowledge_tool] ∧
    azure_ai_knowledge_tool.metadata.name = "Azure_AI_Knowledge" ∧
    azure_ai_knowledge_tool.similarity_top_k = 400 ∧
    azure_ai_knowledge_tool.rerank_top_n = 5 ∧
    ∀ candidates : List NodeWithScore,
      (toolInvoke azure_ai_knowledge_tool candidates).length ≤ 5 ∧
      (toolInvoke azure_ai_knowledge_tool candidates).Sorted scoreGE := by
  refine ⟨rfl, rfl, rfl, rfl, fun candidates => ⟨?_, ?_⟩⟩
  · show ((List.insertionSort scoreGE (candidates.take 400)).take 5).length ≤ 5
    exact List.length_take_le 5 _
  · exact List.Pairwise.sublist (List.take_sublist 5 _)
      (List.sorted_insertionSort scoreGE (candidates.take 400))

/-- C10: `download_knowledge_base_if_not_exists` creates the local directory
before fetching; if the fetch raises, the directory survives with the
snapshot incomplete, a fetch having been attempted, and every subsequent
call finds the path existing and returns immediately without fetching — the
failed first download is never retried. -/
theorem spec_download_partial_state (fs : KBState)
    (h : fs.dirExists = false) :
    (download_knowledge_base_if_not_exists fs false).1.dirExists = true ∧
    (download_knowledge_base_if_not_exists fs false).1.snapshotComplete
        = fs.snapshotComplete ∧
    (download_knowledge_base_if_not_exists fs false).2.1 = true ∧
    (download_knowledge_base_if_not_exists fs false).2.2
        = some "snapshot_download raised" ∧
    ∀ b : Bool,
      download_knowledge_base_if_not_exists
          (download_knowledge_base_if_not_exists fs false).1 b
        = ((download_knowledge_base_if_not_exists fs false).1, false, none) := by
  refine ⟨?_, ?_, ?_, ?_, ?_⟩ <;>
    simp [download_knowledge_base_if_not_exists, h]

/-- Witness for C10 at the fresh local state. -/
theorem spec_download_partial_state_witness :
    (⟨false, false⟩ : KBState).dirExists = false ∧
    ((download_knowledge_base_if_not_exists ⟨false, false⟩ false).1.dirExists = true ∧
     (download_knowledge_base_if_not_exists ⟨false, false⟩ false).1.snapshotComplete
        = (⟨false, false⟩ : KBState).snapshotComplete ∧
     (download_knowledge_base_if_not_exists ⟨false, false⟩ false).2.1 = true ∧
     (download_knowledge_base_if_not_exists ⟨false, false⟩ false).2.2
        = some "snapshot_download raised" ∧
     ∀ b : Bool,
       download_knowledge_base_if_not_exists
           (download_knowledge_base_if_not_exists ⟨false, false⟩ false).1 b
         = ((download_knowledge_base_if_not_exists ⟨false, false⟩ false).1, false, none)) :=
  ⟨rfl, spec_download_partial_state ⟨false, false⟩ rfl⟩
